import Mathlib

/-!
Shallow embedding of `src/integration/aws/lambda_function.py` (the
ClaytipDatabaseInitFn AWS lambda).  The handler's interaction with the
outside world (environment variables, the PostgreSQL server, the local
file system, the logger) is modelled as an explicit trace of effects
produced by a pure function over an abstract `World` that decides which
external operations succeed.  The trace records effects in the exact
order the Python source performs them; a failing external operation
stops the function at that point (the Python exception propagates, since
`create` contains no try/except).
-/

namespace LambdaFunction

/-- Python string rendering of an optional value, as used by f-strings:
`None` renders as the string "None", a present string renders as itself. -/
def pystr : Option String → String
  | none => "None"
  | some s => s

/-- One observable effect of the handler.  Connection-scoped effects are
tagged with a connection id: `0` for the Python variable `conn` (opened
against the default "postgres" database), `1` for `conn2` (opened against
the configured database). -/
inductive Effect where
  | log (msg : String)
  | getenv (key : String) (val : Option String)
  | connOpen (id : Nat) (user password host port database : Option String)
  | setAutocommit (id : Nat)
  | fileRead (path : String)
  | exec (id : Nat) (stmt : String)
  | cursorClose (id : Nat)
  | connClose (id : Nat)
deriving DecidableEq, Repr

/-- The faults that the external world can raise inside `create`. -/
inductive PgError where
  | connectError (database : Option String)
  | fileNotFound (path : String)
  | duplicateDatabase (name : String)
  | sqlError (stmt : String)
deriving DecidableEq, Repr

/-- Abstract external world: which connection attempts succeed (keyed by the
`database` argument passed to `psycopg2.connect`), which databases already
exist on the server, the content of `index.sql` in the working directory
(`none` = the file is absent/unreadable), and whether executing the
initialization script succeeds. -/
structure World where
  connectOk : Option String → Bool
  databases : List String
  indexSql : Option String
  scriptOk : String → Bool

/-- Embedding of the `create` phase handler (`@helper.create def create`).
Returns the effect trace together with `none` on success or the fault that
propagated out of the handler.  The structure mirrors the Python source
line by line: log, read the five environment variables, log the connection
parameters, connect to "postgres", set autocommit, read `index.sql`, log
the SQL, issue `CREATE DATABASE {dbname};`, close cursor and connection,
reconnect to the configured database, set autocommit, execute the script,
close, log "Done.". -/
def create (env : String → Option String) (w : World) : List Effect × Option PgError :=
  let user := env "CLAY_DATABASE_USER"
  let password := env "CLAY_DATABASE_PASSWORD"
  let host := env "CLAY_DATABASE_HOST"
  let port := env "CLAY_DATABASE_HOST_PORT"
  let dbname := env "CLAY_DATABASE_NAME"
  let t1 : List Effect :=
    [.log "Connecting to db...",
     .getenv "CLAY_DATABASE_USER" user,
     .getenv "CLAY_DATABASE_PASSWORD" password,
     .getenv "CLAY_DATABASE_HOST" host,
     .getenv "CLAY_DATABASE_HOST_PORT" port,
     .getenv "CLAY_DATABASE_NAME" dbname,
     .log ("user=" ++ pystr user ++ ", host=" ++ pystr host ++ ", port=" ++
       pystr port ++ ", dbname=" ++ pystr dbname)]
  if w.connectOk (some "postgres") = false then
    (t1, some (.connectError (some "postgres")))
  else
    let t2 := t1 ++
      [.connOpen 0 user password host port (some "postgres"),
       .setAutocommit 0,
       .log "Connected to PostgreSQL instance.",
       .log "Reading initialization SQL..."]
    match w.indexSql with
    | none => (t2, some (.fileNotFound "index.sql"))
    | some sql =>
      let t3 := t2 ++
        [.fileRead "index.sql",
         .log ("SQL: " ++ sql),
         .log ("Creating database " ++ pystr dbname ++ "...")]
      let stmt := "CREATE DATABASE " ++ pystr dbname ++ ";"
      if pystr dbname ∈ w.databases then
        (t3 ++ [.exec 0 stmt], some (.duplicateDatabase (pystr dbname)))
      else
        let t4 := t3 ++
          [.exec 0 stmt, .cursorClose 0, .connClose 0,
           .log ("Reconnecting using " ++ pystr dbname ++ "...")]
        if w.connectOk dbname = false then
          (t4, some (.connectError dbname))
        else
          let t5 := t4 ++
            [.connOpen 1 user password host port dbname,
             .setAutocommit 1,
             .log "Executing initialization script..."]
          if w.scriptOk sql = false then
            (t5 ++ [.exec 1 sql], some (.sqlError sql))
          else
            (t5 ++ [.exec 1 sql, .cursorClose 1, .connClose 1, .log "Done."], none)

/-- Embedding of `no_op`, the handler registered for both the update and the
delete phases (`@helper.update @helper.delete def no_op(_, __): pass`):
it ignores both arguments, performs no effect and succeeds. -/
def no_op {α β : Type} (_event : α) (_context : β) : List Effect × Option PgError :=
  ([], none)

/-- The three lifecycle phases the crhelper adapter dispatches on. -/
inductive Phase where
  | create
  | update
  | delete
deriving DecidableEq, Repr

/-- Embedding of the crhelper registration: `create` handles the create
phase, `no_op` handles update and delete. -/
def dispatch {α : Type} (phase : Phase) (event : α) (env : String → Option String)
    (w : World) : List Effect × Option PgError :=
  match phase with
  | .create => create env w
  | .update => no_op event ()
  | .delete => no_op event ()

/-- The SQL statements issued over a trace, with the id of the connection
each was issued on, in order. -/
def stmtsIssued (tr : List Effect) : List (Nat × String) :=
  tr.filterMap fun e =>
    match e with
    | .exec i s => some (i, s)
    | _ => none

/-- The log messages emitted over a trace, in order. -/
def logsOf (tr : List Effect) : List String :=
  tr.filterMap fun e =>
    match e with
    | .log m => some m
    | _ => none

/-- Decides whether `needle` is an initial segment of `hay`. -/
def beginsWith : List Char → List Char → Bool
  | _, [] => true
  | [], _ :: _ => false
  | a :: as, b :: bs => a == b && beginsWith as bs

/-- Decides whether `needle` occurs contiguously inside `hay`. -/
def occursIn (hay needle : List Char) : Bool :=
  match hay with
  | [] => needle.isEmpty
  | h :: t => beginsWith (h :: t) needle || occursIn t needle

/-- The concrete environment of the spec's test scenario:
user "admin", password "x", host "db.local", port "5432", name "appdb". -/
def env0 : String → Option String := fun k =>
  if k = "CLAY_DATABASE_USER" then some "admin"
  else if k = "CLAY_DATABASE_PASSWORD" then some "x"
  else if k = "CLAY_DATABASE_HOST" then some "db.local"
  else if k = "CLAY_DATABASE_HOST_PORT" then some "5432"
  else if k = "CLAY_DATABASE_NAME" then some "appdb"
  else none

/-- A healthy world: the server is reachable, no database named "appdb"
exists yet, `index.sql` holds the spec's sample script, and the script
executes without error. -/
def w0 : World :=
  { connectOk := fun _ => true
    databases := []
    indexSql := some "CREATE TABLE t (id int);"
    scriptOk := fun _ => true }

/-- Same world, but the configured database already exists. -/
def wDup : World := { w0 with databases := ["appdb"] }

/-- Same world, but `index.sql` is absent from the working directory. -/
def wNoFile : World := { w0 with indexSql := none }

/-- Same world, but executing the initialization script fails. -/
def wScriptFail : World := { w0 with scriptOk := fun _ => false }

/-- An environment with every variable absent. -/
def envNone : String → Option String := fun _ => none


/-- C1: for a create event with valid credentials, a readable `index.sql`
and a database name that does not yet exist, the handler performs exactly
this sequence of effects: read the five environment variables and log the
parameters, open connection 0 to the default "postgres" database and set
it to autocommit, read `index.sql`, issue the single statement
`CREATE DATABASE <name>;` on connection 0, close it, open connection 1 to
the newly created database and set it to autocommit, execute the full
script text as one statement on connection 1, close it; it succeeds, and
the statements issued are exactly one CREATE DATABASE followed by exactly
one execution of the script. -/
theorem create_success_effects (env : String → Option String) (w : World) (sql : String)
    (h1 : w.connectOk (some "postgres") = true)
    (h2 : w.indexSql = some sql)
    (h3 : pystr (env "CLAY_DATABASE_NAME") ∉ w.databases)
    (h4 : w.connectOk (env "CLAY_DATABASE_NAME") = true)
    (h5 : w.scriptOk sql = true) :
    create env w =
      ([Effect.log "Connecting to db...",
        Effect.getenv "CLAY_DATABASE_USER" (env "CLAY_DATABASE_USER"),
        Effect.getenv "CLAY_DATABASE_PASSWORD" (env "CLAY_DATABASE_PASSWORD"),
        Effect.getenv "CLAY_DATABASE_HOST" (env "CLAY_DATABASE_HOST"),
        Effect.getenv "CLAY_DATABASE_HOST_PORT" (env "CLAY_DATABASE_HOST_PORT"),
        Effect.getenv "CLAY_DATABASE_NAME" (env "CLAY_DATABASE_NAME"),
        Effect.log ("user=" ++ pystr (env "CLAY_DATABASE_USER") ++ ", host=" ++
          pystr (env "CLAY_DATABASE_HOST") ++ ", port=" ++
          pystr (env "CLAY_DATABASE_HOST_PORT") ++ ", dbname=" ++
          pystr (env "CLAY_DATABASE_NAME")),
        Effect.connOpen 0 (env "CLAY_DATABASE_USER") (env "CLAY_DATABASE_PASSWORD")
          (env "CLAY_DATABASE_HOST") (env "CLAY_DATABASE_HOST_PORT") (some "postgres"),
        Effect.setAutocommit 0,
        Effect.log "Connected to PostgreSQL instance.",
        Effect.log "Reading initialization SQL...",
        Effect.fileRead "index.sql",
        Effect.log ("SQL: " ++ sql),
        Effect.log ("Creating database " ++ pystr (env "CLAY_DATABASE_NAME") ++ "..."),
        Effect.exec 0 ("CREATE DATABASE " ++ pystr (env "CLAY_DATABASE_NAME") ++ ";"),
        Effect.cursorClose 0,
        Effect.connClose 0,
        Effect.log ("Reconnecting using " ++ pystr (env "CLAY_DATABASE_NAME") ++ "..."),
        Effect.connOpen 1 (env "CLAY_DATABASE_USER") (env "CLAY_DATABASE_PASSWORD")
          (env "CLAY_DATABASE_HOST") (env "CLAY_DATABASE_HOST_PORT")
          (env "CLAY_DATABASE_NAME"),
        Effect.setAutocommit 1,
        Effect.log "Executing initialization script...",
        Effect.exec 1 sql,
        Effect.cursorClose 1,
        Effect.connClose 1,
        Effect.log "Done."], none) ∧
    stmtsIssued (create env w).1 =
      [(0, "CREATE DATABASE " ++ pystr (env "CLAY_DATABASE_NAME") ++ ";"), (1, sql)] := by
  constructor
  · simp [create, h1, h2, h3, h4, h5]
  · simp [create, h1, h2, h3, h4, h5, stmtsIssued]

/-- Witness for C1 at the spec's concrete scenario. -/
theorem create_success_effects_witness :
    (create env0 w0).2 = none ∧
    stmtsIssued (create env0 w0).1 =
      [(0, "CREATE DATABASE appdb;"), (1, "CREATE TABLE t (id int);")] := by
  have h := create_success_effects env0 w0 "CREATE TABLE t (id int);"
    rfl rfl (by decide) rfl rfl
  exact ⟨by rw [h.1], by rw [h.2]; decide⟩

/-- C2 counterexample: with valid credentials and an already-existing
database "appdb", the handler does propagate a duplicate-database error,
but the claim's "the index.sql script is never read" is false: the read
of `index.sql` occurs in the trace (the source reads the file before it
issues CREATE DATABASE). -/
theorem create_duplicate_reads_script :
    (create env0 wDup).2 = some (PgError.duplicateDatabase "appdb") ∧
    Effect.fileRead "index.sql" ∈ (create env0 wDup).1 := by decide

/-- C2 amended: when the configured database already exists (and the
first connection and the file read succeed), the handler fails with a
duplicate-database error; `index.sql` is read, but the script is never
executed — the only statement issued on any connection is the single
CREATE DATABASE statement on connection 0. -/
theorem create_duplicate_fails_script_not_executed (env : String → Option String)
    (w : World) (sql : String)
    (h1 : w.connectOk (some "postgres") = true)
    (h2 : w.indexSql = some sql)
    (h3 : pystr (env "CLAY_DATABASE_NAME") ∈ w.databases) :
    (create env w).2 = some (PgError.duplicateDatabase (pystr (env "CLAY_DATABASE_NAME"))) ∧
    Effect.fileRead "index.sql" ∈ (create env w).1 ∧
    stmtsIssued (create env w).1 =
      [(0, "CREATE DATABASE " ++ pystr (env "CLAY_DATABASE_NAME") ++ ";")] := by
  refine ⟨?_, ?_, ?_⟩ <;> simp [create, h1, h2, h3, stmtsIssued]

/-- Witness for the amended C2 at the concrete duplicate-database scenario. -/
theorem create_duplicate_fails_script_not_executed_witness :
    (create env0 wDup).2 = some (PgError.duplicateDatabase "appdb") ∧
    stmtsIssued (create env0 wDup).1 = [(0, "CREATE DATABASE appdb;")] := by
  have h := create_duplicate_fails_script_not_executed env0 wDup
    "CREATE TABLE t (id int);" rfl rfl (by decide)
  exact ⟨by rw [h.1]; decide, by rw [h.2.2]; decide⟩

/-- C3: the handler registered for the update and the delete phases
performs no effect at all (in particular no database connection and no
statement) and succeeds, for every event payload of every type. -/
theorem dispatch_update_delete_no_effects {α : Type} (event : α)
    (env : String → Option String) (w : World) :
    dispatch Phase.update event env w = ([], none) ∧
    dispatch Phase.delete event env w = ([], none) :=
  ⟨rfl, rfl⟩

/-- C4: if executing the initialization script fails after the CREATE
DATABASE statement succeeded, the error propagates out of the handler
(the result is the script's sqlError), the CREATE DATABASE statement was
issued (so the database was created), and no further statement of any
kind — in particular no DROP/cleanup statement — is issued on any
connection: the statements issued are exactly the CREATE DATABASE and the
one failed script execution. -/
theorem create_script_failure_no_rollback (env : String → Option String)
    (w : World) (sql : String)
    (h1 : w.connectOk (some "postgres") = true)
    (h2 : w.indexSql = some sql)
    (h3 : pystr (env "CLAY_DATABASE_NAME") ∉ w.databases)
    (h4 : w.connectOk (env "CLAY_DATABASE_NAME") = true)
    (h5 : w.scriptOk sql = false) :
    (create env w).2 = some (PgError.sqlError sql) ∧
    Effect.exec 0 ("CREATE DATABASE " ++ pystr (env "CLAY_DATABASE_NAME") ++ ";")
      ∈ (create env w).1 ∧
    stmtsIssued (create env w).1 =
      [(0, "CREATE DATABASE " ++ pystr (env "CLAY_DATABASE_NAME") ++ ";"), (1, sql)] := by
  refine ⟨?_, ?_, ?_⟩ <;> simp [create, h1, h2, h3, h4, h5, stmtsIssued]

/-- Witness for C4 at the concrete failing-script scenario. -/
theorem create_script_failure_no_rollback_witness :
    (create env0 wScriptFail).2 = some (PgError.sqlError "CREATE TABLE t (id int);") ∧
    stmtsIssued (create env0 wScriptFail).1 =
      [(0, "CREATE DATABASE appdb;"), (1, "CREATE TABLE t (id int);")] := by
  have h := create_script_failure_no_rollback env0 wScriptFail
    "CREATE TABLE t (id int);" rfl rfl (by decide) rfl rfl
  exact ⟨by rw [h.1], by rw [h.2.2]; decide⟩

/-- C5: for every value of CLAY_DATABASE_NAME (whatever characters it
contains — the quantification over `env` is unrestricted, so names with
SQL metacharacters are included), the first statement the handler issues,
on connection 0, is exactly the string concatenation
"CREATE DATABASE " ++ name ++ ";" with the name interpolated verbatim and
no quoting, escaping or validation step in between. -/
theorem create_stmt_is_verbatim_concat (env : String → Option String)
    (w : World) (sql : String)
    (h1 : w.connectOk (some "postgres") = true)
    (h2 : w.indexSql = some sql) :
    (stmtsIssued (create env w).1).head? =
      some (0, "CREATE DATABASE " ++ pystr (env "CLAY_DATABASE_NAME") ++ ";") := by
  by_cases h3 : pystr (env "CLAY_DATABASE_NAME") ∈ w.databases
  · simp [create, h1, h2, h3, stmtsIssued]
  · by_cases h4 : w.connectOk (env "CLAY_DATABASE_NAME") = false
    · simp [create, h1, h2, h3, h4, stmtsIssued]
    · by_cases h5 : w.scriptOk sql = false
      · simp [create, h1, h2, h3, h4, h5, stmtsIssued]
      · simp [create, h1, h2, h3, h4, h5, stmtsIssued]

/-- Witness for C5 with a name containing SQL metacharacters: the issued
statement's content changes accordingly, with no escaping. -/
theorem create_stmt_is_verbatim_concat_witness :
    (stmtsIssued (create
      (fun k => if k = "CLAY_DATABASE_NAME" then some "a; DROP DATABASE b" else env0 k)
      w0).1).head? =
      some (0, "CREATE DATABASE a; DROP DATABASE b;") := by
  have h := create_stmt_is_verbatim_concat
    (fun k => if k = "CLAY_DATABASE_NAME" then some "a; DROP DATABASE b" else env0 k)
    w0 "CREATE TABLE t (id int);" rfl rfl
  rw [h]; decide

/-- C6: no error arising inside the create handler is caught, translated
or retried, and no cleanup is attempted: whenever the handler fails, the
effects it performed are exactly a prefix of the effects of a successful
run (over a world in which every external operation succeeds) — nothing
is appended after the faulting operation, and the fault itself is
returned unmodified as the handler's outcome. -/
theorem create_error_propagates_no_cleanup (env : String → Option String)
    (w : World) (e : PgError)
    (h : (create env w).2 = some e) :
    ∃ w' t, (create env w').2 = none ∧ (create env w).1 ++ t = (create env w').1 := by
  refine ⟨⟨fun _ => true, [], some (w.indexSql.getD ""), fun _ => true⟩, ?_⟩
  have hw' : (create env
      ⟨fun _ => true, [], some (w.indexSql.getD ""), fun _ => true⟩).2 = none := by
    simp [create]
  by_cases hc : w.connectOk (some "postgres") = false
  · refine ⟨[Effect.connOpen 0 (env "CLAY_DATABASE_USER") (env "CLAY_DATABASE_PASSWORD")
        (env "CLAY_DATABASE_HOST") (env "CLAY_DATABASE_HOST_PORT") (some "postgres"),
      Effect.setAutocommit 0,
      Effect.log "Connected to PostgreSQL instance.",
      Effect.log "Reading initialization SQL...",
      Effect.fileRead "index.sql",
      Effect.log ("SQL: " ++ w.indexSql.getD ""),
      Effect.log ("Creating database " ++ pystr (env "CLAY_DATABASE_NAME") ++ "..."),
      Effect.exec 0 ("CREATE DATABASE " ++ pystr (env "CLAY_DATABASE_NAME") ++ ";"),
      Effect.cursorClose 0,
      Effect.connClose 0,
      Effect.log ("Reconnecting using " ++ pystr (env "CLAY_DATABASE_NAME") ++ "..."),
      Effect.connOpen 1 (env "CLAY_DATABASE_USER") (env "CLAY_DATABASE_PASSWORD")
        (env "CLAY_DATABASE_HOST") (env "CLAY_DATABASE_HOST_PORT")
        (env "CLAY_DATABASE_NAME"),
      Effect.setAutocommit 1,
      Effect.log "Executing initialization script...",
      Effect.exec 1 (w.indexSql.getD ""),
      Effect.cursorClose 1,
      Effect.connClose 1,
      Effect.log "Done."], hw', ?_⟩
    simp [create, hc]
  · rcases hi : w.indexSql with _ | sql
    · refine ⟨[Effect.fileRead "index.sql",
        Effect.log ("SQL: " ++ ""),
        Effect.log ("Creating database " ++ pystr (env "CLAY_DATABASE_NAME") ++ "..."),
        Effect.exec 0 ("CREATE DATABASE " ++ pystr (env "CLAY_DATABASE_NAME") ++ ";"),
        Effect.cursorClose 0,
        Effect.connClose 0,
        Effect.log ("Reconnecting using " ++ pystr (env "CLAY_DATABASE_NAME") ++ "..."),
        Effect.connOpen 1 (env "CLAY_DATABASE_USER") (env "CLAY_DATABASE_PASSWORD")
          (env "CLAY_DATABASE_HOST") (env "CLAY_DATABASE_HOST_PORT")
          (env "CLAY_DATABASE_NAME"),
        Effect.setAutocommit 1,
        Effect.log "Executing initialization script...",
        Effect.exec 1 "",
        Effect.cursorClose 1,
        Effect.connClose 1,
        Effect.log "Done."], hw', ?_⟩
      simp [create, hc, hi]
    · by_cases hd : pystr (env "CLAY_DATABASE_NAME") ∈ w.databases
      · refine ⟨[Effect.cursorClose 0,
          Effect.connClose 0,
          Effect.log ("Reconnecting using " ++ pystr (env "CLAY_DATABASE_NAME") ++ "..."),
          Effect.connOpen 1 (env "CLAY_DATABASE_USER") (env "CLAY_DATABASE_PASSWORD")
            (env "CLAY_DATABASE_HOST") (env "CLAY_DATABASE_HOST_PORT")
            (env "CLAY_DATABASE_NAME"),
          Effect.setAutocommit 1,
          Effect.log "Executing initialization script...",
          Effect.exec 1 sql,
          Effect.cursorClose 1,
          Effect.connClose 1,
          Effect.log "Done."], hw', ?_⟩
        simp [create, hc, hi, hd]
      · by_cases hc2 : w.connectOk (env "CLAY_DATABASE_NAME") = false
        · refine ⟨[Effect.connOpen 1 (env "CLAY_DATABASE_USER")
              (env "CLAY_DATABASE_PASSWORD") (env "CLAY_DATABASE_HOST")
              (env "CLAY_DATABASE_HOST_PORT") (env "CLAY_DATABASE_NAME"),
            Effect.setAutocommit 1,
            Effect.log "Executing initialization script...",
            Effect.exec 1 sql,
            Effect.cursorClose 1,
            Effect.connClose 1,
            Effect.log "Done."], hw', ?_⟩
          simp [create, hc, hi, hd, hc2]
        · by_cases hs : w.scriptOk sql = false
          · refine ⟨[Effect.cursorClose 1,
              Effect.connClose 1,
              Effect.log "Done."], hw', ?_⟩
            simp [create, hc, hi, hd, hc2, hs]
          · exfalso
            have hcontra := h
            simp [create, hc, hi, hd, hc2, hs] at hcontra

/-- Witness for C6 at the concrete duplicate-database failure. -/
theorem create_error_propagates_no_cleanup_witness :
    ∃ w' t, (create env0 w').2 = none ∧ (create env0 wDup).1 ++ t = (create env0 w').1 :=
  create_error_propagates_no_cleanup env0 wDup
    (PgError.duplicateDatabase "appdb") (by decide)


/-- The environment-variable reads recorded over a trace, in order. -/
def envReads (tr : List Effect) : List (String × Option String) :=
  tr.filterMap fun e =>
    match e with
    | .getenv k v => some (k, v)
    | _ => none

/-- C7: on every create invocation, over every world, the handler reads
exactly the five CLAY_DATABASE_* variables, in source order, each
yielding the current environment's value for that key (fresh per
invocation, nothing cached, no default substituted); and no validation or
fail-fast check precedes first use: whenever the server accepts the
connection, the connection is opened with exactly the raw values read —
including when they are all absent. -/
theorem create_reads_env_fresh_no_validation (env : String → Option String) (w : World) :
    envReads (create env w).1 =
      [("CLAY_DATABASE_USER", env "CLAY_DATABASE_USER"),
       ("CLAY_DATABASE_PASSWORD", env "CLAY_DATABASE_PASSWORD"),
       ("CLAY_DATABASE_HOST", env "CLAY_DATABASE_HOST"),
       ("CLAY_DATABASE_HOST_PORT", env "CLAY_DATABASE_HOST_PORT"),
       ("CLAY_DATABASE_NAME", env "CLAY_DATABASE_NAME")] ∧
    (w.connectOk (some "postgres") = true →
      Effect.connOpen 0 (env "CLAY_DATABASE_USER") (env "CLAY_DATABASE_PASSWORD")
        (env "CLAY_DATABASE_HOST") (env "CLAY_DATABASE_HOST_PORT") (some "postgres")
        ∈ (create env w).1) := by
  constructor
  · by_cases hc : w.connectOk (some "postgres") = false
    · simp [create, hc, envReads]
    · rcases hi : w.indexSql with _ | sql
      · simp [create, hc, hi, envReads]
      · by_cases hd : pystr (env "CLAY_DATABASE_NAME") ∈ w.databases
        · simp [create, hc, hi, hd, envReads]
        · by_cases hc2 : w.connectOk (env "CLAY_DATABASE_NAME") = false
          · simp [create, hc, hi, hd, hc2, envReads]
          · by_cases hs : w.scriptOk sql = false
            · simp [create, hc, hi, hd, hc2, hs, envReads]
            · simp [create, hc, hi, hd, hc2, hs, envReads]
  · intro hc
    rcases hi : w.indexSql with _ | sql
    · simp [create, hc, hi]
    · by_cases hd : pystr (env "CLAY_DATABASE_NAME") ∈ w.databases
      · simp [create, hc, hi, hd]
      · by_cases hc2 : w.connectOk (env "CLAY_DATABASE_NAME") = false
        · simp [create, hc, hi, hd, hc2]
        · by_cases hs : w.scriptOk sql = false
          · simp [create, hc, hi, hd, hc2, hs]
          · simp [create, hc, hi, hd, hc2, hs]

/-- Witness for C7 with every environment variable absent: the five reads
all yield `none` and the connection is still attempted with the raw
absent values — no default, no fail-fast. -/
theorem create_reads_env_fresh_no_validation_witness :
    envReads (create envNone w0).1 =
      [("CLAY_DATABASE_USER", none), ("CLAY_DATABASE_PASSWORD", none),
       ("CLAY_DATABASE_HOST", none), ("CLAY_DATABASE_HOST_PORT", none),
       ("CLAY_DATABASE_NAME", none)] ∧
    Effect.connOpen 0 none none none none (some "postgres") ∈ (create envNone w0).1 := by
  have h := create_reads_env_fresh_no_validation envNone w0
  exact ⟨h.1, h.2 rfl⟩

/-- The effects the handler performs after a successful first connection
but before it touches `index.sql`: everything up to the file read, and in
particular no `exec` — the CREATE DATABASE statement has not been issued
yet. -/
def effectsBeforeFileRead (env : String → Option String) : List Effect :=
  [Effect.log "Connecting to db...",
   Effect.getenv "CLAY_DATABASE_USER" (env "CLAY_DATABASE_USER"),
   Effect.getenv "CLAY_DATABASE_PASSWORD" (env "CLAY_DATABASE_PASSWORD"),
   Effect.getenv "CLAY_DATABASE_HOST" (env "CLAY_DATABASE_HOST"),
   Effect.getenv "CLAY_DATABASE_HOST_PORT" (env "CLAY_DATABASE_HOST_PORT"),
   Effect.getenv "CLAY_DATABASE_NAME" (env "CLAY_DATABASE_NAME"),
   Effect.log ("user=" ++ pystr (env "CLAY_DATABASE_USER") ++ ", host=" ++
     pystr (env "CLAY_DATABASE_HOST") ++ ", port=" ++
     pystr (env "CLAY_DATABASE_HOST_PORT") ++ ", dbname=" ++
     pystr (env "CLAY_DATABASE_NAME")),
   Effect.connOpen 0 (env "CLAY_DATABASE_USER") (env "CLAY_DATABASE_PASSWORD")
     (env "CLAY_DATABASE_HOST") (env "CLAY_DATABASE_HOST_PORT") (some "postgres"),
   Effect.setAutocommit 0,
   Effect.log "Connected to PostgreSQL instance.",
   Effect.log "Reading initialization SQL..."]

/-- C8: the `index.sql` read happens strictly before the CREATE DATABASE
statement is issued.  (a) If the file is absent, the handler fails with
the file error and no statement of any kind has been issued — no database
is created by that invocation.  (b) Whenever the file is readable, the
trace splits as the fixed exec-free head `effectsBeforeFileRead`, then the
file read, then the rest — so every statement, in particular the CREATE
DATABASE, comes after the read. -/
theorem create_file_read_before_create_stmt (env : String → Option String) (w : World) :
    (w.connectOk (some "postgres") = true → w.indexSql = none →
      (create env w).2 = some (PgError.fileNotFound "index.sql") ∧
      ∀ i s, Effect.exec i s ∉ (create env w).1) ∧
    (∀ sql, w.connectOk (some "postgres") = true → w.indexSql = some sql →
      (∃ post, (create env w).1 =
        effectsBeforeFileRead env ++ Effect.fileRead "index.sql" :: post) ∧
      ∀ i s, Effect.exec i s ∉ effectsBeforeFileRead env) := by
  constructor
  · intro h1 h2
    constructor
    · simp [create, h1, h2]
    · intro i s
      simp [create, h1, h2]
  · intro sql h1 h2
    constructor
    · by_cases hd : pystr (env "CLAY_DATABASE_NAME") ∈ w.databases
      · exact ⟨_, by simp [create, effectsBeforeFileRead, h1, h2, hd]; rfl⟩
      · by_cases hc2 : w.connectOk (env "CLAY_DATABASE_NAME") = false
        · exact ⟨_, by simp [create, effectsBeforeFileRead, h1, h2, hd, hc2]; rfl⟩
        · by_cases hs : w.scriptOk sql = false
          · exact ⟨_, by simp [create, effectsBeforeFileRead, h1, h2, hd, hc2, hs]; rfl⟩
          · exact ⟨_, by simp [create, effectsBeforeFileRead, h1, h2, hd, hc2, hs]; rfl⟩
    · intro i s
      simp [effectsBeforeFileRead]

/-- Witness for C8: with `index.sql` absent the invocation fails with the
file error (so no CREATE DATABASE was issued), and in the healthy world
the trace has the exec-free head followed by the file read. -/
theorem create_file_read_before_create_stmt_witness :
    (create env0 wNoFile).2 = some (PgError.fileNotFound "index.sql") ∧
    (∃ post, (create env0 w0).1 =
      effectsBeforeFileRead env0 ++ Effect.fileRead "index.sql" :: post) := by
  refine ⟨((create_file_read_before_create_stmt env0 wNoFile).1 rfl rfl).1, ?_⟩
  exact ((create_file_read_before_create_stmt env0 w0).2
    "CREATE TABLE t (id int);" rfl rfl).1

/-- C9: the handler has no finally-style cleanup: on the
duplicate-database failure path the first connection was opened and no
connection close of any kind occurs in the trace, and on the
script-execution failure path the second connection was opened and is
never closed (only connection 0, closed on the success path of the first
statement, is). -/
theorem create_error_leaves_connection_unclosed (env : String → Option String) (w : World) :
    (∀ sql, w.connectOk (some "postgres") = true → w.indexSql = some sql →
      pystr (env "CLAY_DATABASE_NAME") ∈ w.databases →
      Effect.connOpen 0 (env "CLAY_DATABASE_USER") (env "CLAY_DATABASE_PASSWORD")
        (env "CLAY_DATABASE_HOST") (env "CLAY_DATABASE_HOST_PORT") (some "postgres")
        ∈ (create env w).1 ∧
      ∀ i, Effect.connClose i ∉ (create env w).1) ∧
    (∀ sql, w.connectOk (some "postgres") = true → w.indexSql = some sql →
      pystr (env "CLAY_DATABASE_NAME") ∉ w.databases →
      w.connectOk (env "CLAY_DATABASE_NAME") = true →
      w.scriptOk sql = false →
      Effect.connOpen 1 (env "CLAY_DATABASE_USER") (env "CLAY_DATABASE_PASSWORD")
        (env "CLAY_DATABASE_HOST") (env "CLAY_DATABASE_HOST_PORT")
        (env "CLAY_DATABASE_NAME") ∈ (create env w).1 ∧
      Effect.connClose 0 ∈ (create env w).1 ∧
      Effect.connClose 1 ∉ (create env w).1) := by
  constructor
  · intro sql h1 h2 h3
    refine ⟨?_, ?_⟩
    · simp [create, h1, h2, h3]
    · intro i
      simp [create, h1, h2, h3]
  · intro sql h1 h2 h3 h4 h5
    refine ⟨?_, ?_, ?_⟩ <;> simp [create, h1, h2, h3, h4, h5]

/-- Witness for C9 at the concrete duplicate-database and failing-script
scenarios. -/
theorem create_error_leaves_connection_unclosed_witness :
    Effect.connClose 0 ∉ (create env0 wDup).1 ∧
    Effect.connClose 0 ∈ (create env0 wScriptFail).1 ∧
    Effect.connClose 1 ∉ (create env0 wScriptFail).1 := by
  have h1 := (create_error_leaves_connection_unclosed env0 wDup).1
    "CREATE TABLE t (id int);" rfl rfl (by decide)
  have h2 := (create_error_leaves_connection_unclosed env0 wScriptFail).2
    "CREATE TABLE t (id int);" rfl rfl (by decide) rfl rfl
  exact ⟨h1.2 0, h2.2.1, h2.2.2⟩

/-- An environment in which the password's value coincides with the
user's value, so the logged connection-parameter line contains the
password's value. -/
def envLeak : String → Option String := fun k =>
  if k = "CLAY_DATABASE_USER" then some "x"
  else if k = "CLAY_DATABASE_PASSWORD" then some "x"
  else if k = "CLAY_DATABASE_HOST" then some "h"
  else if k = "CLAY_DATABASE_HOST_PORT" then some "p"
  else if k = "CLAY_DATABASE_NAME" then some "d"
  else none

/-- C10 counterexample: "the value of CLAY_DATABASE_PASSWORD never
appears in any log output, for every environment" is false: in an
environment where the password's value equals the user's value, the
handler's own parameter log line contains the password's value as a
contiguous substring. -/
theorem create_password_appears_in_log :
    pystr (envLeak "CLAY_DATABASE_PASSWORD") = "x" ∧
    Effect.log "user=x, host=h, port=p, dbname=d" ∈ (create envLeak w0).1 ∧
    occursIn "user=x, host=h, port=p, dbname=d".data "x".data = true := by decide

/-- C10 amended: the create handler logs the user, host, port and
database name, and separately logs the full script text; the value of
CLAY_DATABASE_PASSWORD is never used to build any log message: every
message the handler emits — over every environment and every world,
whatever prefix of the run is reached before a fault — is either a fixed
literal or built only from the user, host, port and database-name values
and the script text, so the password's value can appear in log output
only by textually coinciding with one of those other logged values.
(Which messages get emitted may still depend on the password, through
connection success or failure; only the message contents are
password-free.) -/
theorem create_log_messages_not_built_from_password (env : String → Option String)
    (w : World) :
    (∀ m, m ∈ logsOf (create env w).1 →
      m = "Connecting to db..." ∨
      m = "user=" ++ pystr (env "CLAY_DATABASE_USER") ++ ", host=" ++
        pystr (env "CLAY_DATABASE_HOST") ++ ", port=" ++
        pystr (env "CLAY_DATABASE_HOST_PORT") ++ ", dbname=" ++
        pystr (env "CLAY_DATABASE_NAME") ∨
      m = "Connected to PostgreSQL instance." ∨
      m = "Reading initialization SQL..." ∨
      (∃ sql, w.indexSql = some sql ∧ m = "SQL: " ++ sql) ∨
      m = "Creating database " ++ pystr (env "CLAY_DATABASE_NAME") ++ "..." ∨
      m = "Reconnecting using " ++ pystr (env "CLAY_DATABASE_NAME") ++ "..." ∨
      m = "Executing initialization script..." ∨
      m = "Done.") ∧
    (∀ sql, w.connectOk (some "postgres") = true → w.indexSql = some sql →
      Effect.log ("user=" ++ pystr (env "CLAY_DATABASE_USER") ++ ", host=" ++
        pystr (env "CLAY_DATABASE_HOST") ++ ", port=" ++
        pystr (env "CLAY_DATABASE_HOST_PORT") ++ ", dbname=" ++
        pystr (env "CLAY_DATABASE_NAME")) ∈ (create env w).1 ∧
      Effect.log ("SQL: " ++ sql) ∈ (create env w).1) := by
  constructor
  · intro m hm
    by_cases hc : w.connectOk (some "postgres") = false
    · simp [create, logsOf, hc] at hm
      rcases hm with rfl | rfl <;> simp
    · rcases hi : w.indexSql with _ | sql
      · simp [create, logsOf, hc, hi] at hm
        rcases hm with rfl | rfl | rfl | rfl <;> simp
      · by_cases hd : pystr (env "CLAY_DATABASE_NAME") ∈ w.databases
        · simp [create, logsOf, hc, hi, hd] at hm
          rcases hm with rfl | rfl | rfl | rfl | rfl | rfl <;> simp [hi]
        · by_cases hc2 : w.connectOk (env "CLAY_DATABASE_NAME") = false
          · simp [create, logsOf, hc, hi, hd, hc2] at hm
            rcases hm with rfl | rfl | rfl | rfl | rfl | rfl | rfl <;> simp [hi]
          · by_cases hs : w.scriptOk sql = false
            · simp [create, logsOf, hc, hi, hd, hc2, hs] at hm
              rcases hm with rfl | rfl | rfl | rfl | rfl | rfl | rfl | rfl <;> simp [hi]
            · simp [create, logsOf, hc, hi, hd, hc2, hs] at hm
              rcases hm with rfl | rfl | rfl | rfl | rfl | rfl | rfl | rfl | rfl <;>
                simp [hi]
  · intro sql h1 h2
    by_cases hd : pystr (env "CLAY_DATABASE_NAME") ∈ w.databases
    · constructor <;> simp [create, h1, h2, hd]
    · by_cases hc2 : w.connectOk (env "CLAY_DATABASE_NAME") = false
      · constructor <;> simp [create, h1, h2, hd, hc2]
      · by_cases hs : w.scriptOk sql = false
        · constructor <;> simp [create, h1, h2, hd, hc2, hs]
        · constructor <;> simp [create, h1, h2, hd, hc2, hs]

/-- Witness for the amended C10 at the spec scenario: the script-text log
line is emitted, and classifying it through the theorem identifies it as
the script-derived message shape — not one built from the password. -/
theorem create_log_messages_not_built_from_password_witness :
    Effect.log ("SQL: " ++ "CREATE TABLE t (id int);") ∈ (create env0 w0).1 ∧
    (∃ sql, w0.indexSql = some sql ∧
      "SQL: CREATE TABLE t (id int);" = "SQL: " ++ sql) := by
  have h := create_log_messages_not_built_from_password env0 w0
  have hmem : "SQL: CREATE TABLE t (id int);" ∈ logsOf (create env0 w0).1 := by decide
  refine ⟨(h.2 "CREATE TABLE t (id int);" rfl rfl).2, ?_⟩
  rcases h.1 "SQL: CREATE TABLE t (id int);" hmem with
    h1 | h1 | h1 | h1 | h1 | h1 | h1 | h1 | h1
  · exact absurd h1 (by decide)
  · exact absurd h1 (by decide)
  · exact absurd h1 (by decide)
  · exact absurd h1 (by decide)
  · exact h1
  · exact absurd h1 (by decide)
  · exact absurd h1 (by decide)
  · exact absurd h1 (by decide)
  · exact absurd h1 (by decide)

end LambdaFunction